import Mathlib

/-!
Verification of the arpa2 idhub-reservoir repository.

Shallow embedding of the Python sources
  src/arpa2/servicedit/ldap.py   (class DataSyncLDAP)
  src/arpa2/reservoir/node.py    (classes Index, Domain, Collection, Resource)
into Lean.  Python strings are modelled as lists of characters; Python dicts
as association lists; a raised Python exception as the error side of Except.
Method bodies are embedded over explicit state records that carry exactly the
instance attributes the method reads or writes.  Argument-arity mistakes in
the constructor plumbing of the source (which would keep any object from ever
being built) are below this embedding: each method body is modelled on its
own, as it would run on an instance carrying the attributes it mentions.
-/

namespace ReservoirModel

/-- Python exception kinds raised by the embedded method bodies. -/
inductive PyErr where
  | unboundLocal
  | typeError
  | keyError
  | attributeError
  | assertError
  | accessDenied (missing : List Char)
deriving DecidableEq

/-- First-match lookup in an association list, the model of Python dict
reads (d.get(k) / d[k]). -/
def assocFind {κ α : Type} [DecidableEq κ] : List (κ × α) → κ → Option α
  | [], _ => none
  | (k, v) :: rest, key => if k = key then some v else assocFind rest key

/-- Update of an association list at a key, the model of Python dict
assignment d[k] = v (overwrites an existing entry, else appends). -/
def assocSet {κ α : Type} [DecidableEq κ] : List (κ × α) → κ → α → List (κ × α)
  | [], k, v => [(k, v)]
  | (k0, v0) :: rest, k, v =>
      if k0 = k then (k, v) :: rest else (k0, v0) :: assocSet rest k v

/-- Lowercase hexadecimal digit, the character class [0-9a-f] of uuid_re and
idxe_re in src/arpa2/reservoir/node.py. -/
def isHexL (c : Char) : Bool :=
  (('0' ≤ c) && (c ≤ '9')) || (('a' ≤ c) && (c ≤ 'f'))

/-- Printable ASCII, the character class [ -~] of step_re and idxe_re in
src/arpa2/reservoir/node.py. -/
def isPrint (c : Char) : Bool := ((' ' ≤ c) && (c ≤ '~'))

/-- step_re = ^[ -~]+$ from src/arpa2/reservoir/node.py line 14: nonempty,
every character printable ASCII. -/
def stepMatch (s : List Char) : Bool := !s.isEmpty && s.all isPrint

/-- uuid_re = 8-4-4-4-12 lowercase hex groups separated by dashes, from
src/arpa2/reservoir/node.py line 15 (also the identifier group of idxe_re on
line 16): exactly 36 characters, dashes at positions 8, 13, 18, 23, lowercase
hex digits everywhere else. -/
def uuidMatch (s : List Char) : Bool :=
  (s.length == 36) && (List.range 36).all (fun i =>
    if i == 8 || i == 13 || i == 18 || i == 23
    then s.getD i ' ' == '-'
    else isHexL (s.getD i ' '))

/-- varnm_re = ^[a-zA-Z0-9-_.]+$ from src/arpa2/servicedit/ldap.py line 25. -/
def varnmMatch (s : List Char) : Bool :=
  !s.isEmpty && s.all (fun c => c.isAlphanum || c == '-' || c == '_' || c == '.')

/-- dnval_re = ^[^=,+]+$ from src/arpa2/servicedit/ldap.py line 26. -/
def dnvalMatch (s : List Char) : Bool :=
  !s.isEmpty && s.all (fun c => !(c == '=' || c == ',' || c == '+'))

/-- user_re = ^[a-zA-Z0-9-+]+$ from src/arpa2/reservoir/node.py line 13. -/
def userMatch (s : List Char) : Bool :=
  !s.isEmpty && s.all (fun c => c.isAlphanum || c == '-' || c == '+')

/-- The newattr computation of Index.set_index_entry
(src/arpa2/reservoir/node.py lines 140-144): an index entry serializes as the
bare identifier when the name is absent (the default entry), else as the
identifier, one space, and the name. -/
def idxeEncode (id : List Char) (name : Option (List Char)) : List Char :=
  match name with
  | none => id
  | some n => id ++ ' ' :: n

/-- The idxe_re parse performed per stored entry by Index.load_index
(src/arpa2/reservoir/node.py lines 90-93): idxe_re is
^(uuid)(?: ([ -~]+))?$, so the fixed-length 36-character identifier is
validated against the uuid shape, and an optional single space then a
nonempty printable name follows; anything else fails the assert (modelled as
none). -/
def idxeDecode (s : List Char) : Option (List Char × Option (List Char)) :=
  if uuidMatch (s.take 36) then
    match s.drop 36 with
    | [] => some (s.take 36, none)
    | c :: rest =>
        if c == ' ' && stepMatch rest then some (s.take 36, some rest) else none
  else none

/-- Validity of an optional index-entry name: absent, or matching step_re. -/
def nameOk : Option (List Char) → Bool
  | none => true
  | some n => stepMatch n

/-- One change tuple appended to the changes list of DataSyncLDAP.set_value /
set_list_elem (src/arpa2/servicedit/ldap.py): an ldap.MOD_ADD or
ldap.MOD_DELETE of an attribute value. -/
inductive LdapMod where
  | modAdd (attr v : List Char)
  | modDel (attr v : List Char)
deriving DecidableEq

/-- One call issued to the LDAP backend during a method body: modify_s on a
location with a list of changes. -/
inductive BackendCall where
  | modifyS (location : List Char) (changes : List LdapMod)
deriving DecidableEq

/-- The instance attributes of a DataSyncLDAP node read by set_value and
set_list_elem (src/arpa2/servicedit/ldap.py lines 224-232): the location
(DN), the registered singular attribute names atnm_one, the loaded flag, and
the attribute table attrvals split into its singular part (attrone) and its
list-valued part (attrlists). -/
structure NodeState where
  location : List Char
  atnm_one : List (List Char)
  loaded : Bool
  attrone : List (List Char × Option (List Char))
  attrlists : List (List Char × List (List Char))
deriving DecidableEq

/-- DataSyncLDAP.set_value (src/arpa2/servicedit/ldap.py lines 345-361).
The body asserts varnm in self.atnm_one (else AssertionError); if the node is
not loaded it calls self.load_vars() with no arguments, which raises
TypeError because load_vars requires a classes argument; otherwise it reads
oldval = self.attrvals[varnm] (KeyError when absent) and then evaluates
oldval[varnm], subscripting a string or None with a string, which raises
TypeError.  So no call reaches the local update or the modify_s on line 361:
every call faults before contacting the backend. -/
def set_value (st : NodeState) (varnm : List Char) (newval : Option (List Char)) :
    Except PyErr (NodeState × List BackendCall) :=
  if varnm ∈ st.atnm_one then
    if st.loaded then
      match assocFind st.attrone varnm with
      | none => Except.error PyErr.keyError
      | some _ => Except.error PyErr.typeError
    else Except.error PyErr.typeError
  else Except.error PyErr.assertError

/-- DataSyncLDAP.set_list_elem (src/arpa2/servicedit/ldap.py lines 374-391).
With oldval given, the body runs del self.attrvals[listnm][oldval]: reading
attrvals[listnm] raises KeyError when the key is absent, and deleting a list
item by a string index raises TypeError.  With oldval absent and newval
given, it appends newval to self.attrvals[listnm] (KeyError when absent) and
records an ldap.MOD_ADD change.  The body ends by calling
self.ldapcnx.dap.modify_s(self.location, changes) on line 391: the backend
is contacted inside the call itself, on every non-faulting path.  The result
pairs the updated node state with the list of backend calls issued. -/
def set_list_elem (st : NodeState) (listnm : List Char)
    (oldval newval : Option (List Char)) :
    Except PyErr (NodeState × List BackendCall) :=
  match oldval with
  | some _ =>
      match assocFind st.attrlists listnm with
      | none => Except.error PyErr.keyError
      | some _ => Except.error PyErr.typeError
  | none =>
      match newval with
      | none => Except.ok (st, [BackendCall.modifyS st.location []])
      | some v =>
          match assocFind st.attrlists listnm with
          | none => Except.error PyErr.keyError
          | some l =>
              Except.ok
                ({ st with attrlists := assocSet st.attrlists listnm (l ++ [v]) },
                 [BackendCall.modifyS st.location [LdapMod.modAdd listnm v]])

/-- A concrete node for evaluating set_list_elem: loaded, with an empty
collectionRef list. -/
def nodeEx : NodeState :=
  ⟨"associatedDomain=example.com".data, [], true,
   [], [("collectionRef".data, [])]⟩

/-- The information reachable from a Collection through self and its parent
chain: the session, here just the authenticated user identity that an access
decision could in principle depend on. -/
structure Session where
  user : List Char
deriving DecidableEq

/-- Collection.access_rights (src/arpa2/reservoir/node.py lines 429-439).
The body is a TODO stub: it ignores everything reachable from self (in
particular the session user) and returns the constant string dcwrpkov. -/
def Collection.access_rights (s : Session) : List Char :=
  "dcwrpkov".data

/-- The body of Collection.access_require after right = self.access_rights()
(src/arpa2/reservoir/node.py lines 441-453), with the rights string as an
explicit parameter.  wrong = [f for f in flags if f not in right]; when wrong
is nonempty the code evaluates self.access_desciption(wrong) - a misspelling
of access_description - which raises AttributeError before any exception
carrying the missing flags can be built (access_description itself also
references an undefined name flag2descr).  When wrong is empty the call
returns normally. -/
def accessRequireOn (right flags : List Char) : Except PyErr Unit :=
  let wrong := flags.filter (fun f => !(right.contains f))
  if wrong.length > 0 then Except.error PyErr.attributeError else Except.ok ()

/-- Collection.access_require (src/arpa2/reservoir/node.py lines 441-453):
reads the rights from Collection.access_rights and applies the check body. -/
def Collection.access_require (s : Session) (flags : List Char) : Except PyErr Unit :=
  accessRequireOn (Collection.access_rights s) flags

/-- The created flag of a Resource (src/arpa2/reservoir/node.py line 487). -/
structure ResourceState where
  created : Bool
deriving DecidableEq

/-- Vocabulary of transaction-registration effects a method body could emit;
the embedded bodies record every such effect they issue. -/
inductive TxEffect where
  | registerTx
deriving DecidableEq

/-- Resource.create (src/arpa2/reservoir/node.py lines 492-498) with the
owning Collection's rights string as an explicit parameter: the body calls
self.access_require('c'), which forwards to the Collection check
(lines 489-490), and on success sets self.created = True.  The result
triple is (outcome, resulting resource state, transaction effects issued);
the body issues no transaction registration.  On an exception the resource
state is returned unchanged, since the raise precedes the assignment. -/
def Resource.createOn (right : List Char) (r : ResourceState) :
    Except PyErr Unit × ResourceState × List TxEffect :=
  match accessRequireOn right "c".data with
  | Except.error e => (Except.error e, r, [])
  | Except.ok _ => (Except.ok (), { r with created := true }, [])

/-- Resource.create as it runs in the source: the rights come from the owning
Collection's access_rights (the constant dcwrpkov). -/
def Resource.create (s : Session) (r : ResourceState) :
    Except PyErr Unit × ResourceState × List TxEffect :=
  Resource.createOn (Collection.access_rights s) r

/-- The instance attributes of a DataSyncLDAP node used by child_node
(src/arpa2/servicedit/ldap.py lines 402-421): the node's location and its
children mapping (a WeakValueDictionary from key strings to child objects,
modelled as an association list to object identities; entries persist here,
which corresponds to every returned child still being strongly held), plus a
counter supplying the identity of the next freshly constructed object. -/
structure ChildCache where
  location : List Char
  entries : List (List Char × Nat)
  nextId : Nat
deriving DecidableEq

/-- DataSyncLDAP.child_location (src/arpa2/servicedit/ldap.py lines 393-400):
varnm + '=' + value + ',' + self.location. -/
def child_location (loc varnm value : List Char) : List Char :=
  varnm ++ '=' :: (value ++ ',' :: loc)

/-- DataSyncLDAP.child_node (src/arpa2/servicedit/ldap.py lines 402-421).
After the varnm_re / dnval_re asserts, the body computes
chiloc = self.child_location(varnm, value) and looks it up in self.children;
on a miss it constructs a fresh child object and stores it under the key
varnm + '=' + value - a different, shorter key than chiloc, exactly as the
source does on lines 414-418.  Returns the object identity of the returned
child together with the updated cache. -/
def child_node (st : ChildCache) (varnm value : List Char) :
    Except PyErr (Nat × ChildCache) :=
  if varnmMatch varnm && dnvalMatch value then
    match assocFind st.entries (child_location st.location varnm value) with
    | some o => Except.ok (o, st)
    | none =>
        Except.ok (st.nextId,
          { st with
              entries := assocSet st.entries (varnm ++ '=' :: value) st.nextId,
              nextId := st.nextId + 1 })
  else Except.error PyErr.assertError

/-- A concrete parent node for evaluating child_node: empty cache. -/
def cacheEx : ChildCache := ⟨"dc=example".data, [], 0⟩

/-- Modelled from the spec: one call made by the TransactionManager's commit
to a registered node - a forward sync(), a rollback sync(reverse=true), or a
clear_cache().  The TransactionManager itself is missing from src/: the
DataSyncLDAP docstring in src/arpa2/servicedit/ldap.py (lines 210-222) only
declares collecting changes into transactions as future work, so the
commit/rollback protocol is modelled from spec section 4.2. -/
inductive TxCall where
  | fwd (i : Nat)
  | rev (i : Nat)
  | clearCache (i : Nat)
deriving DecidableEq

/-- The rollback sync(reverse=true) calls in a commit call log, in order. -/
def revCalls : List TxCall → List Nat
  | [] => []
  | TxCall.rev i :: rest => i :: revCalls rest
  | TxCall.fwd _ :: rest => revCalls rest
  | TxCall.clearCache _ :: rest => revCalls rest

/-- Modelled from the spec (section 4.2, TransactionManager.commit - missing
from src/): walk the registered nodes in registration order; ok lists each
remaining node's sync() outcome and i is the absolute index of the next
node; done holds the indices already synced, most recent first.  On a sync
failure, walk done in order (that is, the already-synced nodes in strict
reverse registration order) invoking sync(reverse=true) on each and return
failure; when every sync succeeds, invoke clear_cache() on all nodes in
registration order and return success.  The result pairs the success flag
with the log of calls issued. -/
def commitRun (ok : List Bool) (i : Nat) (done : List Nat) : Bool × List TxCall :=
  match ok with
  | [] => (true, (done.reverse).map TxCall.clearCache)
  | b :: rest =>
      if b then
        ((commitRun rest (i + 1) (i :: done)).1,
         TxCall.fwd i :: (commitRun rest (i + 1) (i :: done)).2)
      else (false, TxCall.fwd i :: done.map TxCall.rev)

/-- Modelled from the spec (section 4.2): commit over a pending set of
ok.length nodes in registration order 0, 1, ...; returns the success flag,
the call log, and the pending set after commit, which is cleared on both the
success and the failure path. -/
def commit (ok : List Bool) : Bool × List TxCall × List Nat :=
  ((commitRun ok 0 []).1, (commitRun ok 0 []).2, [])

/-- The state of an in-memory walk environment: per-node loaded Index
mappings from step name to collection uuid (Index.get_index_entry,
src/arpa2/reservoir/node.py lines 113-120), and the identity map from
collection uuid to the Collection node that Domain.collection resolves
through the child cache (lines 296-301; an unknown uuid still yields a
node, modelled by the default 0). -/
structure WalkEnv where
  idx : List (Nat × List (List Char × List Char))
  coll : List (List Char × Nat)

/-- A value returned by Index.walk: an Index/Collection node, or a Resource
handle carrying the collection uuid and resource name it was looked up
under. -/
inductive WalkRes where
  | node (n : Nat)
  | res (coll : List Char) (name : List Char)
deriving DecidableEq

/-- Index.get_index_entry for a loaded index (src/arpa2/reservoir/node.py
lines 113-120): dictionary lookup of the step name, None when absent. -/
def get_index_entry (env : WalkEnv) (n : Nat) (step : List Char) :
    Option (List Char) :=
  match assocFind env.idx n with
  | none => none
  | some m => assocFind m step

/-- Domain.collection (src/arpa2/reservoir/node.py lines 296-301), reached
from walk as self.appinst.collection(coll_uuid): asserts
uuid_re.match(coll_uuid) - AssertionError on a non-matching string - then
resolves the Collection node through the child cache, always yielding a
node. -/
def envCollection (env : WalkEnv) (u : List Char) : Except PyErr Nat :=
  if uuidMatch u then Except.ok ((assocFind env.coll u).getD 0)
  else Except.error PyErr.assertError

/-- The call self.appinst.resource(coll_uuid, res_name) at the end of
Index.walk (src/arpa2/reservoir/node.py line 222), resolved through
Domain.resource (lines 310-317).  The local coll_uuid is modelled as
Option (Option String): the outer none is the unbound state - coll_uuid is
only assigned inside the path loop, so with an empty path reading it raises
UnboundLocalError; some none is the bound Python None left by a failed last
lookup, on which Domain.collection's uuid_re.match(None) raises TypeError;
a bound string is validated against the uuid shape, then the resource is
resolved as a child node keyed by the name, whose dnval_re assert in
child_node applies to the name. -/
def resourceCall (env : WalkEnv) (cu : Option (Option (List Char)))
    (rn : List Char) : Except PyErr (Option WalkRes) :=
  match cu with
  | none => Except.error PyErr.unboundLocal
  | some none => Except.error PyErr.typeError
  | some (some u) =>
      match envCollection env u with
      | Except.error e => Except.error e
      | Except.ok _ =>
          if dnvalMatch rn then Except.ok (some (WalkRes.res u rn))
          else Except.error PyErr.assertError

/-- The path loop of Index.walk (src/arpa2/reservoir/node.py lines 195-210).
Carries prev (the node of the previous iteration), here (the current node,
None after a failed lookup), and the local coll_uuid (outer none while still
unbound).  Each iteration asserts step_re on the step, returns None for the
whole walk when here is already None (the inner return None, modelled as
ok none), binds coll_uuid to the index lookup, and either resolves the next
Collection or sets here to None. -/
def walkLoop (env : WalkEnv) :
    List (List Char) → Option Nat → Option Nat → Option (Option (List Char)) →
    Except PyErr (Option (Option Nat × Option Nat × Option (Option (List Char))))
  | [], prev, here, cu => Except.ok (some (prev, here, cu))
  | step :: rest, _prev, here, _cu =>
      if stepMatch step then
        match here with
        | none => Except.ok none
        | some h =>
            match get_index_entry env h step with
            | some u =>
                match envCollection env u with
                | Except.error e => Except.error e
                | Except.ok c => walkLoop env rest (some h) (some c) (some (some u))
            | none => walkLoop env rest (some h) none (some none)
      else Except.error PyErr.assertError

/-- Index.walk (src/arpa2/reservoir/node.py lines 164-226).  First maybe_res
is forced to False when res_name is given or the path is empty (line 192);
then the path loop runs; after the loop, a vanished here with maybe_res set
reinterprets the last path element as res_name (the dead here = prev
assignment included in the source), else returns None; finally a set
res_name is resolved through self.appinst.resource(coll_uuid, res_name)
with the loop's coll_uuid local. -/
def walk (env : WalkEnv) (start : Nat) (path : List (List Char))
    (res_name : Option (List Char)) (maybe_res : Bool) :
    Except PyErr (Option WalkRes) :=
  let mr := if res_name.isSome || path.isEmpty then false else maybe_res
  match walkLoop env path none (some start) none with
  | Except.error e => Except.error e
  | Except.ok none => Except.ok none
  | Except.ok (some (_prev, here, cu)) =>
      match here with
      | some h =>
          match res_name with
          | none => Except.ok (some (WalkRes.node h))
          | some rn => resourceCall env cu rn
      | none =>
          if mr then resourceCall env cu (path.getLastD [])
          else Except.ok none

/-- A fixed well-formed collection uuid for concrete walk environments. -/
def uuidX : List Char := "0f1e2d3c-4b5a-6978-8796-a5b4c3d2e1f0".data

/-- A concrete walk environment: index node 0 maps step a to uuidX, whose
Collection is node 1; node 1 is a loaded empty index (no entry z). -/
def envEx : WalkEnv :=
  ⟨[(0, [("a".data, uuidX)]), (1, [])], [(uuidX, 1)]⟩

/-- The instance attribute of a Domain read by home_dn
(src/arpa2/reservoir/node.py line 251): the domain's base DN.  Domain never
sets a uid attribute. -/
structure DomainState where
  baseDN : List Char
deriving DecidableEq

/-- Domain.home_dn (src/arpa2/reservoir/node.py lines 260-270).  With no
username the body computes dn = self.baseDN into a local variable and falls
off the end - there is no return statement, so Python returns None.  With a
username it asserts user_re.match(username) (AssertionError on a
non-matching name), then evaluates 'uid=' + self.uid + ..., which raises
AttributeError because Domain has no uid attribute; so no input returns a
DN. -/
def home_dn (d : DomainState) (username : Option (List Char)) :
    Except PyErr (Option (List Char)) :=
  match username with
  | none => Except.ok none
  | some u =>
      if userMatch u then Except.error PyErr.attributeError
      else Except.error PyErr.assertError

/-- A concrete Domain for evaluating home_dn. -/
def domEx : DomainState := ⟨"associatedDomain=example.com".data⟩

end ReservoirModel

namespace ReservoirModel

theorem uuidMatch_length {s : List Char} (h : uuidMatch s = true) :
    s.length = 36 := by
  unfold uuidMatch at h
  have h1 := (Bool.and_eq_true _ _).mp h
  simpa using h1.1

/-- Claim C5: index entry round-trip.  For every identifier matching the
uuid shape and every valid (optional) name, decoding the encoded entry gives
the pair back, and encoding with an absent name is the bare identifier with
no trailing separator. -/
theorem idxe_roundtrip (id : List Char) (name : Option (List Char))
    (hid : uuidMatch id = true) (hname : nameOk name = true) :
    idxeDecode (idxeEncode id name) = some (id, name) ∧ idxeEncode id none = id := by
  have hlen : id.length = 36 := uuidMatch_length hid
  constructor
  · cases name with
    | none =>
        unfold idxeEncode idxeDecode
        rw [← hlen, List.take_length, List.drop_length, hid]
        simp
    | some n =>
        unfold idxeEncode idxeDecode
        rw [List.take_left' hlen, List.drop_left' hlen, hid]
        simp only [if_true]
        simp only [nameOk] at hname
        simp [hname]
  · rfl

/-- Witness for claim C5 at a concrete identifier and name. -/
theorem idxe_roundtrip_witness :
    idxeDecode (idxeEncode ("0f1e2d3c-4b5a-6978-8796-a5b4c3d2e1f0".data)
        (some "hello world".data)) =
      some ("0f1e2d3c-4b5a-6978-8796-a5b4c3d2e1f0".data, some "hello world".data) :=
  (idxe_roundtrip "0f1e2d3c-4b5a-6978-8796-a5b4c3d2e1f0".data
    (some "hello world".data) (by decide) (by decide)).1

/-- Claim C2, counterexample: set_list_elem does contact the backend inside
the call.  On the concrete loaded node nodeEx, the pure insertion
set_list_elem('collectionRef', None, 'x') succeeds and issues a modify_s
backend call carrying the MOD_ADD change - a nonempty list of backend
operations issued by the call itself, contradicting the claimed deferral to
transaction commit. -/
theorem set_list_elem_backend_counterexample :
    set_list_elem nodeEx "collectionRef".data none (some "x".data) =
      Except.ok ({ nodeEx with attrlists := [("collectionRef".data, ["x".data])] },
        [BackendCall.modifyS "associatedDomain=example.com".data
          [LdapMod.modAdd "collectionRef".data "x".data]]) ∧
    [BackendCall.modifyS "associatedDomain=example.com".data
        [LdapMod.modAdd "collectionRef".data "x".data]] ≠ ([] : List BackendCall) := by
  constructor
  · rfl
  · intro h
    exact List.noConfusion h

/-- Claim C2 as amended: the write is recorded locally AND an LDAP modify is
issued by the call itself - synchronization is not deferred and no
transaction registration exists.  Conjuncts: (1) for a node whose list
attribute listnm currently holds l, the pure insertion appends v to the
local list and issues exactly one modify_s on the node's location carrying
the MOD_ADD change; (2) every non-faulting call of set_list_elem, on any
node and any arguments, issues exactly one modify_s backend call on that
node's location; (3) set_list_elem with oldval given always faults
(KeyError or the TypeError of deleting a list item by a string index);
(4) set_value always faults before any local update or backend contact
(AssertionError, the TypeError of the argumentless load_vars call, KeyError,
or the TypeError of oldval[varnm]). -/
theorem set_list_elem_immediate (st : NodeState) (listnm v : List Char)
    (l : List (List Char)) (h : assocFind st.attrlists listnm = some l) :
    set_list_elem st listnm none (some v) =
      Except.ok ({ st with attrlists := assocSet st.attrlists listnm (l ++ [v]) },
        [BackendCall.modifyS st.location [LdapMod.modAdd listnm v]]) ∧
    (∀ st2 nm oldv newv st3 calls,
        set_list_elem st2 nm oldv newv = Except.ok (st3, calls) →
        ∃ ch, calls = [BackendCall.modifyS st2.location ch]) ∧
    (∀ st2 nm o newv, ∃ e,
        set_list_elem st2 nm (some o) newv = Except.error e) ∧
    (∀ st2 nm newv, ∃ e, set_value st2 nm newv = Except.error e) := by
  refine ⟨?_, ?_, ?_, ?_⟩
  · unfold set_list_elem
    rw [h]
  · intro st2 nm oldv newv st3 calls hok
    cases oldv with
    | some o =>
        unfold set_list_elem at hok
        cases hfind : assocFind st2.attrlists nm with
        | none => rw [hfind] at hok; exact Except.noConfusion hok
        | some l2 => rw [hfind] at hok; exact Except.noConfusion hok
    | none =>
        cases newv with
        | none =>
            unfold set_list_elem at hok
            exact ⟨[], (Prod.mk.injEq .. ▸ Except.ok.inj hok).2.symm⟩
        | some v2 =>
            unfold set_list_elem at hok
            cases hfind : assocFind st2.attrlists nm with
            | none => rw [hfind] at hok; exact Except.noConfusion hok
            | some l2 =>
                rw [hfind] at hok
                exact ⟨[LdapMod.modAdd nm v2],
                  (Prod.mk.injEq .. ▸ Except.ok.inj hok).2.symm⟩
  · intro st2 nm o newv
    unfold set_list_elem
    cases hfind : assocFind st2.attrlists nm with
    | none => exact ⟨PyErr.keyError, by simp [hfind]⟩
    | some l2 => exact ⟨PyErr.typeError, by simp [hfind]⟩
  · intro st2 nm newv
    unfold set_value
    by_cases h1 : nm ∈ st2.atnm_one
    · by_cases h2 : st2.loaded = true
      · cases hfind : assocFind st2.attrone nm with
        | none => exact ⟨PyErr.keyError, by simp [h1, h2, hfind]⟩
        | some x => exact ⟨PyErr.typeError, by simp [h1, h2, hfind]⟩
      · exact ⟨PyErr.typeError, by simp [h1, h2]⟩
    · exact ⟨PyErr.assertError, by simp [h1]⟩

/-- Witness for the amended claim C2 at a concrete node and value. -/
theorem set_list_elem_immediate_witness :
    set_list_elem nodeEx "collectionRef".data none (some "y".data) =
      Except.ok ({ nodeEx with
          attrlists := assocSet nodeEx.attrlists "collectionRef".data ([] ++ ["y".data]) },
        [BackendCall.modifyS nodeEx.location [LdapMod.modAdd "collectionRef".data "y".data]]) :=
  (set_list_elem_immediate nodeEx "collectionRef".data "y".data [] rfl).1

/-- Claim C3: the child cache of child_node never produces a hit.  On the
concrete parent cacheEx, a first call child_node('uid', 'john') constructs
object 0 and stores it under the key uid=john, but a second identical call -
made while the first result is still held, since cache entries persist in
this model - looks up the longer key uid=john,dc=example, misses, and
constructs the distinct fresh object 1: reference identity for repeated
lookups of the same key fails. -/
theorem child_node_no_sharing :
    child_node cacheEx "uid".data "john".data =
      Except.ok (0, ⟨"dc=example".data, [("uid=john".data, 0)], 1⟩) ∧
    child_node ⟨"dc=example".data, [("uid=john".data, 0)], 1⟩ "uid".data "john".data =
      Except.ok (1, ⟨"dc=example".data, [("uid=john".data, 1)], 2⟩) ∧
    (0 : Nat) ≠ 1 := by
  refine ⟨rfl, rfl, ?_⟩
  intro h
  exact Nat.noConfusion h

/-- Claim C6: access gating.  access_require('cd') on a Collection (whose
rights are the constant dcwrpkov) succeeds; access_require('a') computes the
missing list ['a'] but then raises AttributeError from the misspelled
self.access_desciption call, not an AccessDenied error carrying the missing
set; the hypothetical rights string v with flags 'c' from the claim hits the
same AttributeError. -/
theorem access_require_eval :
    Collection.access_require ⟨"alice".data⟩ "cd".data = Except.ok () ∧
    Collection.access_require ⟨"alice".data⟩ "a".data =
      Except.error PyErr.attributeError ∧
    accessRequireOn "v".data "c".data = Except.error PyErr.attributeError :=
  ⟨rfl, rfl, rfl⟩

/-- Claim C7 as amended: Resource.create checks the 'c' right through the
owning Collection; with 'c' present the call succeeds, sets created to true
and issues no transaction registration; with 'c' absent from the rights the
call raises (an AttributeError from the misspelled description helper, not
an AccessDenied value) and the resource state is unchanged.  In the source
the rights are constantly dcwrpkov, so Resource.create always succeeds. -/
theorem resource_create_spec (right : List Char) (r : ResourceState) (s : Session) :
    Resource.createOn right r =
      (if 'c' ∈ right
       then (Except.ok (), { r with created := true }, ([] : List TxEffect))
       else (Except.error PyErr.attributeError, r, [])) ∧
    Resource.create s r = (Except.ok (), { r with created := true }, []) := by
  constructor
  · unfold Resource.createOn accessRequireOn
    by_cases hc : 'c' ∈ right
    · rw [if_pos hc]
      simp [hc]
    · rw [if_neg hc]
      simp [hc]
  · rfl

/-- Claim C7, counterexample: on a Collection with the source's actual
(constant, 'c'-containing) rights, Resource.create succeeds and sets created
but issues no transaction registration - the effect list is empty, not a
registration of the resource with an active transaction; and with the
claim's hypothetical rights v lacking 'c', the failure is an AttributeError,
not an AccessDenied error. -/
theorem resource_create_counterexample :
    Resource.create ⟨"alice".data⟩ ⟨false⟩ =
      (Except.ok (), ⟨true⟩, ([] : List TxEffect)) ∧
    Resource.createOn "v".data ⟨false⟩ =
      (Except.error PyErr.attributeError, ⟨false⟩, []) :=
  ⟨rfl, rfl⟩

/-- Claim C8: constant access rights.  Collection.access_rights returns
exactly dcwrpkov for every session, two sessions with different user
identities get the same rights, and the admin flag 'a' and service flag 's'
are never granted. -/
theorem access_rights_constant (s1 s2 : Session) :
    Collection.access_rights s1 = "dcwrpkov".data ∧
    Collection.access_rights s1 = Collection.access_rights s2 ∧
    (Collection.access_rights s1).contains 'a' = false ∧
    (Collection.access_rights s1).contains 's' = false :=
  ⟨rfl, rfl, rfl, rfl⟩

theorem revCalls_map_rev (l : List Nat) : revCalls (l.map TxCall.rev) = l := by
  induction l with
  | nil => rfl
  | cons a t ih => simp [List.map, revCalls, ih]

theorem revCalls_map_clear (l : List Nat) :
    revCalls (l.map TxCall.clearCache) = [] := by
  induction l with
  | nil => rfl
  | cons a t ih => simp [List.map, revCalls, ih]

theorem commitRun_success (ok : List Bool) :
    ∀ i done, (∀ j, j < ok.length → ok.getD j false = true) →
    (commitRun ok i done).1 = true ∧ revCalls (commitRun ok i done).2 = [] := by
  induction ok with
  | nil => intro i done _; exact ⟨rfl, revCalls_map_clear _⟩
  | cons b rest ih =>
      intro i done h
      have hb : b = true := h 0 (Nat.succ_pos _)
      subst hb
      have h2 : ∀ j, j < rest.length → rest.getD j false = true :=
        fun j hj => h (j + 1) (Nat.succ_lt_succ hj)
      have hr := ih (i + 1) (i :: done) h2
      exact ⟨by simp [commitRun, hr.1], by simp [commitRun, revCalls, hr.2]⟩

theorem commitRun_fail (ok : List Bool) :
    ∀ i done k, k < ok.length →
    (∀ j, j < k → ok.getD j false = true) →
    ok.getD k false = false →
    (commitRun ok i done).1 = false ∧
    revCalls (commitRun ok i done).2 = (List.range' i k).reverse ++ done := by
  induction ok with
  | nil => intro i done k hk _ _; exact absurd hk (Nat.not_lt_zero _)
  | cons b rest ih =>
      intro i done k hk hpre hfail
      cases k with
      | zero =>
          have hb : b = false := hfail
          subst hb
          exact ⟨rfl, by simp [commitRun, revCalls, revCalls_map_rev]⟩
      | succ k0 =>
          have hb : b = true := hpre 0 (Nat.succ_pos _)
          subst hb
          have h2 : ∀ j, j < k0 → rest.getD j false = true :=
            fun j hj => hpre (j + 1) (Nat.succ_lt_succ hj)
          have hf2 : rest.getD k0 false = false := hfail
          have hk2 : k0 < rest.length := Nat.lt_of_succ_lt_succ hk
          have hr := ih (i + 1) (i :: done) k0 hk2 h2 hf2
          refine ⟨by simp [commitRun, hr.1], ?_⟩
          simp [commitRun, revCalls, hr.2, List.range'_succ]

/-- Claim C1: commit is all-or-nothing with ordered rollback.  For the
spec-modelled transaction manager over registered nodes 0 .. ok.length - 1
in registration order: when every node's sync() succeeds, commit returns
success with no reverse syncs and an empty pending set; when the sync of the
node at index k fails (all earlier ones succeeding), commit returns failure,
the nodes that receive sync(reverse=true) are exactly k-1, k-2, ..., 0 in
that order, and the pending set is empty afterwards. -/
theorem commit_atomicity (ok : List Bool) :
    ((∀ j, j < ok.length → ok.getD j false = true) →
        (commit ok).1 = true ∧ revCalls (commit ok).2.1 = [] ∧
        (commit ok).2.2 = []) ∧
    (∀ k, k < ok.length →
        (∀ j, j < k → ok.getD j false = true) →
        ok.getD k false = false →
        (commit ok).1 = false ∧
        revCalls (commit ok).2.1 = (List.range k).reverse ∧
        (commit ok).2.2 = []) := by
  constructor
  · intro h
    have hr := commitRun_success ok 0 [] h
    exact ⟨hr.1, hr.2, rfl⟩
  · intro k hk hpre hfail
    have hr := commitRun_fail ok 0 [] k hk hpre hfail
    refine ⟨hr.1, ?_, rfl⟩
    show revCalls (commitRun ok 0 []).2 = (List.range k).reverse
    rw [hr.2, List.range_eq_range']
    simp

/-- Witness for claim C1 at the concrete outcome list [true, true, false]:
the third node's sync fails, nodes 1 then 0 are reverse-synced, and the
pending set is cleared. -/
theorem commit_atomicity_witness :
    (commit [true, true, false]).1 = false ∧
    revCalls (commit [true, true, false]).2.1 = (List.range 2).reverse ∧
    (commit [true, true, false]).2.2 = [] :=
  (commit_atomicity [true, true, false]).2 2 (by decide) (by decide) (by decide)

/-- Claim C4: tail fallback of Index.walk.  On envEx - where step a resolves
to the Collection node 1 and node 1 has no entry z - walking [a, z] with
maybe_res=True does not return a Resource named z under the previous node:
the source passes the loop's coll_uuid local, left as None by the failed
last lookup, to the resource call, and uuid_re.match(None) raises TypeError.
Walking the same path with maybe_res=False returns None as the claim
states. -/
theorem walk_tail_fallback_faults :
    walk envEx 0 ["a".data, "z".data] none true = Except.error PyErr.typeError ∧
    walk envEx 0 ["a".data, "z".data] none false = Except.ok none :=
  ⟨rfl, rfl⟩

/-- Claim C9: a walk with an empty path and an explicit resource name never
yields a Resource.  For every environment, start node, name and maybe_res
flag, walk([], res_name) reads the coll_uuid local that is only assigned
inside the path loop, and so faults with UnboundLocalError instead of
returning. -/
theorem walk_empty_path_resource_faults (env : WalkEnv) (start : Nat)
    (rn : List Char) (mb : Bool) :
    walk env start [] (some rn) mb = Except.error PyErr.unboundLocal := rfl

/-- Claim C10, counterexample: with a valid username, Domain.home_dn does
not return None - it raises AttributeError while evaluating
'uid=' + self.uid, since Domain never sets a uid attribute. -/
theorem home_dn_counterexample :
    home_dn domEx (some "john".data) ≠ Except.ok none := by
  intro h
  exact Except.noConfusion h

/-- Claim C10 as amended: with no username, home_dn computes the base DN
into a local variable and returns None (the body has no return statement);
with a valid username it raises AttributeError (Domain has no uid
attribute); and no input makes it return the domain base DN or the user's
starting DN - it never returns a string at all. -/
theorem home_dn_returns_nothing (d : DomainState) :
    home_dn d none = Except.ok none ∧
    (∀ u, userMatch u = true →
        home_dn d (some u) = Except.error PyErr.attributeError) ∧
    (∀ u rn, home_dn d u ≠ Except.ok (some rn)) := by
  refine ⟨rfl, fun u hu => ?_, fun u rn h => ?_⟩
  · simp [home_dn, hu]
  · cases u with
    | none => exact Option.noConfusion (Except.ok.inj h)
    | some u => cases hcase : userMatch u <;> simp [home_dn, hcase] at h

/-- Witness for the amended claim C10 at a concrete Domain and username. -/
theorem home_dn_returns_nothing_witness :
    home_dn domEx none = Except.ok none ∧
    home_dn domEx (some "john".data) = Except.error PyErr.attributeError :=
  ⟨(home_dn_returns_nothing domEx).1,
   (home_dn_returns_nothing domEx).2.1 "john".data (by decide)⟩

end ReservoirModel
